import Mathlib

/-!
# Verification of the zont time-zone converter core

This file gives a shallow embedding of the core of `zont.py` — the
`TimeZoneConverter` class: `normalize_timezone`, `parse_time_input` and
`convert_time` — and proves the testable properties stated in the
specification against it.

Modelling conventions:

* Python strings are Lean `String`s; the ASCII-level Python string methods
  `strip`, `lower`, `upper` and the substring operator `in` are embedded as
  structurally recursive functions over `List Char` (`pyStrip`, `pyLower`,
  `pyUpper`, `occursIn`), which agree with Python on the ASCII inputs the
  program manipulates.
* Python exceptions caught at the `convert_time` boundary are embedded as the
  two-variant sum `PyResult`: `ValueError f"Unknown timezone: {t}"` and
  `ValueError f"Could not parse time: {s}"` become `PyResult.error` with the
  same message.
* `datetime` values carrying a `ZoneInfo` tzinfo are embedded as `Datetime`:
  a naive wall-clock value on a linear minute scale together with the UTC
  offset (in minutes) that the attached zone reports for it, exactly the data
  that determines how Python compares and converts aware datetimes.  The
  external zone database (`zoneinfo`) is an opaque oracle `TzDb` supplying the
  offset for a wall-clock attachment (`replace(tzinfo=...)`) and the offset at
  an absolute instant (`astimezone`).  Wall-clock fields `(y, m, d, h, min)`
  are mapped to the linear scale with the standard civil-calendar day count
  `daysFromCivil`; the calendar date of a `Datetime` is its wall-clock minute
  value integer-divided by 1440.
* The machine clock read by `datetime.now()` is an explicit `Clock` input:
  the current absolute instant and the machine-local current date.
* The four `re` patterns of `parse_time_input` are embedded as the structural
  predicates `shape1`–`shape4` on the character list (the patterns are
  anchored, so a match is a structural decomposition), and the corresponding
  `datetime.strptime` calls as `strp1`–`strp4`, which succeed exactly when
  CPython's `_strptime` accepts the shape-matched input (`%I` requires
  1–12, `%H` 0–23, `%M` 0–59, `%m` 1–12, `%d` a valid day of the month,
  `datetime` requires year ≥ 1).
* The zone catalog `sorted(available_timezones())` is external data; it is
  embedded below as the concrete sorted list `all_timezones` of the 598 IANA
  keys provided by the zone database (tzdata) the program runs against.
-/

/-- Charwise lower-casing, the embedding of Python `str.lower` on ASCII. -/
def pyLower (l : List Char) : List Char := l.map Char.toLower

/-- Charwise upper-casing, the embedding of Python `str.upper` on ASCII. -/
def pyUpper (l : List Char) : List Char := l.map Char.toUpper

/-- The whitespace class stripped by Python `str.strip` (ASCII part). -/
def isWS (c : Char) : Bool :=
  c == ' ' || c == '\t' || c == '\n' || c == '\r' || c == '\x0b' || c == '\x0c'

/-- The embedding of Python `str.strip` (no argument): drop leading and
trailing whitespace. -/
def pyStrip (l : List Char) : List Char :=
  ((l.dropWhile isWS).reverse.dropWhile isWS).reverse

/-- `str.strip` lifted to `String`. -/
def stripStr (s : String) : String := ⟨pyStrip s.data⟩

/-- `str.upper` lifted to `String`. -/
def upperStr (s : String) : String := ⟨pyUpper s.data⟩

/-- `startsList pat l` is true iff `pat` is an initial segment of `l`. -/
def startsList : List Char → List Char → Bool
  | [], _ => true
  | _ :: _, [] => false
  | a :: as, b :: bs => a == b && startsList as bs

/-- `occursIn pat l` is the embedding of the Python substring test
`pat in l`: `pat` occurs contiguously somewhere in `l`. -/
def occursIn (pat : List Char) : List Char → Bool
  | [] => pat.isEmpty
  | c :: rest => startsList pat (c :: rest) || occursIn pat rest

/-- The two-variant outcome of a Python call whose exceptions are caught at
the pipeline boundary: either a value or the exception's message. -/
inductive PyResult (α : Type) : Type where
  | ok (val : α) : PyResult α
  | error (msg : String) : PyResult α
  deriving DecidableEq

/-- `self.timezone_abbrevs` from `TimeZoneConverter.__init__`: the fixed
abbreviation table, in source order. -/
def timezone_abbrevs : List (String × String) :=
  [("EST", "America/New_York"),
   ("PST", "America/Los_Angeles"),
   ("MST", "America/Denver"),
   ("CST", "America/Chicago"),
   ("GMT", "Europe/London"),
   ("UTC", "UTC"),
   ("JST", "Asia/Tokyo"),
   ("CET", "Europe/Paris"),
   ("IST", "Asia/Kolkata"),
   ("AEST", "Australia/Sydney")]

/-- Python dict lookup `timezone_abbrevs[k]` guarded by `k in timezone_abbrevs`
(keys are distinct, so association-list lookup coincides with dict lookup). -/
def abbrevLookup (k : String) : Option String :=
  (timezone_abbrevs.find? (fun p => p.1 == k)).map Prod.snd

/-- `TimeZoneConverter.normalize_timezone`, parameterised by the zone catalog
`self.all_timezones = sorted(available_timezones())`.  Mirrors the source:
strip, abbreviation table (on the upper-cased token), exact catalog member,
first fuzzy substring match over the catalog, else
`ValueError(f"Unknown timezone: {tz_input}")`. -/
def normalize_timezone (all_tzs : List String) (tz_input : String) :
    PyResult String :=
  let t := stripStr tz_input
  match abbrevLookup (upperStr t) with
  | some z => .ok z
  | none =>
    if all_tzs.contains t then .ok t
    else
      match all_tzs.find? (fun tz => occursIn (pyLower t.data) (pyLower tz.data)) with
      | some tz => .ok tz
      | none => .error ("Unknown timezone: " ++ t)

/-- Gregorian leap-year test (as used by Python `datetime`). -/
def isLeap (y : Int) : Bool :=
  y % 4 == 0 && (y % 100 != 0 || y % 400 == 0)

/-- Length of a month, as validated by the Python `datetime` constructor. -/
def daysInMonth (y : Int) (m : Int) : Int :=
  if m == 2 then (if isLeap y then 29 else 28)
  else if m == 4 || m == 6 || m == 9 || m == 11 then 30
  else 31

/-- Day count of a civil date on a linear scale with epoch 1970-01-01
(the standard civil-from-days correspondence, with floor division). -/
def daysFromCivil (y m d : Int) : Int :=
  let y2 := if m ≤ 2 then y - 1 else y
  let era := y2.ediv 400
  let yoe := y2 - era * 400
  let mp := if m ≤ 2 then m + 9 else m - 3
  let doy := (153 * mp + 2).ediv 5 + d - 1
  let doe := yoe * 365 + yoe.ediv 4 - yoe.ediv 100 + doy
  era * 146097 + doe - 719468

/-- The external zone database (`zoneinfo`), an opaque oracle: the catalog of
valid keys, the UTC offset (minutes) a zone reports at an absolute instant
(used by `astimezone`), and the UTC offset a zone assigns to a naive
wall-clock value on attachment (used by `replace(tzinfo=ZoneInfo(z))`). -/
structure TzDb where
  catalog : List String
  offsetAt : String → Int → Int
  offsetOfWall : String → Int → Int

/-- The machine clock: the absolute instant `datetime.now()` observes, and the
machine-local current civil date `datetime.now().date()`. -/
structure Clock where
  nowAbs : Int
  todayY : Int
  todayM : Int
  todayD : Int

/-- An aware Python `datetime`: naive wall-clock value on a linear minute
scale, the UTC offset (minutes) its tzinfo reports for it, and the attached
zone key.  Comparison of aware datetimes is by `wallMinutes - utcoffset`. -/
structure Datetime where
  wallMinutes : Int
  utcoffset : Int
  tz : String
  deriving DecidableEq

/-- The absolute instant an aware datetime denotes (minutes since epoch,
UTC). -/
def absoluteTime (dt : Datetime) : Int := dt.wallMinutes - dt.utcoffset

/-- `datetime.now(ZoneInfo(tz))`: the current absolute instant rendered in
`tz`. -/
def datetime_now (db : TzDb) (clock : Clock) (tz : String) : Datetime :=
  let off := db.offsetAt tz clock.nowAbs
  { wallMinutes := clock.nowAbs + off, utcoffset := off, tz := tz }

/-- `dt.replace(tzinfo=ZoneInfo(tz))` on a naive wall-clock value `w`: attach
the zone, whose rules decide the offset for that wall-clock reading. -/
def attachZone (db : TzDb) (w : Int) (tz : String) : Datetime :=
  { wallMinutes := w, utcoffset := db.offsetOfWall tz w, tz := tz }

/-- `dt.astimezone(ZoneInfo(tz))`: re-render the same absolute instant under
`tz`'s rules. -/
def astimezone (db : TzDb) (dt : Datetime) (tz : String) : Datetime :=
  let a := absoluteTime dt
  let off := db.offsetAt tz a
  { wallMinutes := a + off, utcoffset := off, tz := tz }

/-- The character class `[ap]` of the meridiem patterns (`re.IGNORECASE`). -/
def isAP (c : Char) : Bool := c == 'a' || c == 'A' || c == 'p' || c == 'P'

/-- Is the meridiem letter a `p` (so the time is PM)? -/
def isPChar (c : Char) : Bool := c == 'p' || c == 'P'

/-- The character class `[m]` closing the meridiem patterns. -/
def isMChar (c : Char) : Bool := c == 'm' || c == 'M'

/-- The anchored pattern `^(\d{1,2})([ap]m)$` (case-insensitive): `3pm`. -/
def shape1 : List Char → Bool
  | [d1, c1, c2] => d1.isDigit && isAP c1 && isMChar c2
  | [d1, d2, c1, c2] => d1.isDigit && d2.isDigit && isAP c1 && isMChar c2
  | _ => false

/-- The anchored pattern `^(\d{1,2}):(\d{2})([ap]m)$`: `3:30pm`. -/
def shape2 : List Char → Bool
  | [d1, c, m1, m2, c1, c2] =>
    d1.isDigit && c == ':' && m1.isDigit && m2.isDigit && isAP c1 && isMChar c2
  | [d1, d2, c, m1, m2, c1, c2] =>
    d1.isDigit && d2.isDigit && c == ':' && m1.isDigit && m2.isDigit &&
      isAP c1 && isMChar c2
  | _ => false

/-- The anchored pattern `^(\d{1,2}):(\d{2})$`: `15:30`. -/
def shape3 : List Char → Bool
  | [d1, c, m1, m2] => d1.isDigit && c == ':' && m1.isDigit && m2.isDigit
  | [d1, d2, c, m1, m2] =>
    d1.isDigit && d2.isDigit && c == ':' && m1.isDigit && m2.isDigit
  | _ => false

/-- The anchored pattern `^(\d{4}-\d{2}-\d{2}\s+\d{1,2}:\d{2})$`:
`2024-01-15 15:00`.  The `\s+` run is maximal since `\d` matches no
whitespace. -/
def shape4 : List Char → Bool
  | y1 :: y2 :: y3 :: y4 :: h1 :: a1 :: a2 :: h2 :: b1 :: b2 :: rest =>
    y1.isDigit && y2.isDigit && y3.isDigit && y4.isDigit &&
    h1 == '-' && a1.isDigit && a2.isDigit && h2 == '-' &&
    b1.isDigit && b2.isDigit &&
    (let ws := rest.takeWhile isWS
     !ws.isEmpty && shape3 (rest.drop ws.length))
  | _ => false

/-- Numeric value of a digit character. -/
def digitVal (c : Char) : Nat := c.toNat - 48

/-- Numeric value of a digit string, as read by `int` inside `strptime`. -/
def digitsVal (l : List Char) : Nat :=
  l.foldl (fun a c => 10 * a + digitVal c) 0

/-- The `%I` field of `_strptime` on a 1–2 digit group: accepts exactly the
hours 1–12 (the group `1[0-2]|0[1-9]|[1-9]`; a 1–2 digit group outside that
range makes the whole `strptime` call raise `ValueError`). -/
def strpI (ds : List Char) : Option Nat :=
  let v := digitsVal ds
  if 1 ≤ v ∧ v ≤ 12 then some v else none

/-- The `%H` field of `_strptime` on a 1–2 digit group: accepts 0–23. -/
def strpH (ds : List Char) : Option Nat :=
  let v := digitsVal ds
  if v ≤ 23 then some v else none

/-- The `%M` field of `_strptime` on a 2-digit group: accepts 0–59. -/
def strpM (ds : List Char) : Option Nat :=
  let v := digitsVal ds
  if v ≤ 59 then some v else none

/-- `_strptime`'s 12-hour to 24-hour conversion under `%p`. -/
def applyMeridiem (pm : Bool) (h : Nat) : Nat :=
  if pm then (if h = 12 then 12 else h + 12)
  else (if h = 12 then 0 else h)

/-- `datetime.strptime(s.upper(), "%I%p")` on a `shape1`-matched input:
hour in 1–12, minutes default to zero. -/
def strp1 : List Char → Option (Nat × Nat)
  | [d1, c1, _] =>
    (strpI [d1]).map (fun h => (applyMeridiem (isPChar c1) h, 0))
  | [d1, d2, c1, _] =>
    (strpI [d1, d2]).map (fun h => (applyMeridiem (isPChar c1) h, 0))
  | _ => none

/-- `datetime.strptime(s.upper(), "%I:%M%p")` on a `shape2`-matched input. -/
def strp2 : List Char → Option (Nat × Nat)
  | [d1, _, m1, m2, c1, _] =>
    (strpI [d1]).bind fun h =>
      (strpM [m1, m2]).map fun mi => (applyMeridiem (isPChar c1) h, mi)
  | [d1, d2, _, m1, m2, c1, _] =>
    (strpI [d1, d2]).bind fun h =>
      (strpM [m1, m2]).map fun mi => (applyMeridiem (isPChar c1) h, mi)
  | _ => none

/-- `datetime.strptime(s.upper(), "%H:%M")` on a `shape3`-matched input. -/
def strp3 : List Char → Option (Nat × Nat)
  | [d1, _, m1, m2] =>
    (strpH [d1]).bind fun h => (strpM [m1, m2]).map fun mi => (h, mi)
  | [d1, d2, _, m1, m2] =>
    (strpH [d1, d2]).bind fun h => (strpM [m1, m2]).map fun mi => (h, mi)
  | _ => none

/-- `datetime.strptime(s, "%Y-%m-%d %H:%M")` on a `shape4`-matched input,
returning the naive wall-clock value in minutes.  `%m` demands 1–12, `%d` a
day the `datetime` constructor accepts for that month, and `datetime` demands
year ≥ 1 (`MINYEAR`); any violation raises `ValueError`. -/
def strp4 : List Char → Option Int
  | y1 :: y2 :: y3 :: y4 :: _ :: a1 :: a2 :: _ :: b1 :: b2 :: rest =>
    let y : Int := (digitsVal [y1, y2, y3, y4] : Nat)
    let mo : Int := (digitsVal [a1, a2] : Nat)
    let d : Int := (digitsVal [b1, b2] : Nat)
    let ws := rest.takeWhile isWS
    (strp3 (rest.drop ws.length)).bind fun hm =>
      if 1 ≤ y ∧ 1 ≤ mo ∧ mo ≤ 12 ∧ 1 ≤ d ∧ d ≤ daysInMonth y mo then
        some (1440 * daysFromCivil y mo d + ((60 * hm.1 + hm.2 : Nat) : Int))
      else none
  | _ => none

/-- The machine-local current date on the linear minute scale: the wall-clock
minute at which today's date begins (`datetime.now().date()` as minutes). -/
def todayMinutes (clock : Clock) : Int :=
  1440 * daysFromCivil clock.todayY clock.todayM clock.todayD

/-- The pattern loop of `parse_time_input`: try each `(regex, fmt)` pair in
source order; a shape match whose `strptime` raises `ValueError` falls
through to the next pair (`continue`).  Time-only forms are completed with
today's machine-local date (`dt.replace(year=today.year, ...)`); the full
form carries its own date.  Returns the naive wall-clock value in minutes. -/
def tryPatterns (todayMin : Int) (l : List Char) : Option Int :=
  (if shape1 l then
      (strp1 l).map (fun hm => todayMin + ((60 * hm.1 + hm.2 : Nat) : Int))
   else none) <|>
  ((if shape2 l then
      (strp2 l).map (fun hm => todayMin + ((60 * hm.1 + hm.2 : Nat) : Int))
    else none) <|>
  ((if shape3 l then
      (strp3 l).map (fun hm => todayMin + ((60 * hm.1 + hm.2 : Nat) : Int))
    else none) <|>
  (if shape4 l then strp4 l else none)))

/-- `TimeZoneConverter.parse_time_input`: strip; `"now"` (case-insensitive)
returns the current instant in the source zone; otherwise the pattern loop,
attaching the source zone to the parsed naive wall-clock value; else
`ValueError(f"Could not parse time: {time_str}")`. -/
def parse_time_input (db : TzDb) (clock : Clock) (time_str : String)
    (source_tz : String) : PyResult Datetime :=
  let s := stripStr time_str
  if pyLower s.data = ['n', 'o', 'w'] then
    .ok (datetime_now db clock source_tz)
  else
    match tryPatterns (todayMinutes clock) s.data with
    | some w => .ok (attachZone db w source_tz)
    | none => .error ("Could not parse time: " ++ s)

/-- The success record of `convert_time` (the four-field dict). -/
structure ConversionSuccess where
  source_time : Datetime
  target_time : Datetime
  source_tz : String
  target_tz : String
  deriving DecidableEq

/-- `TimeZoneConverter.convert_time`: resolve both zones, parse the time in
the source zone, re-render in the target zone; every raised `ValueError` is
caught by the boundary `except` and returned as `{'error': str(e)}`. -/
def convert_time (db : TzDb) (clock : Clock)
    (time_str from_tz to_tz : String) : PyResult ConversionSuccess :=
  match normalize_timezone db.catalog from_tz with
  | .error e => .error e
  | .ok source_tz =>
    match normalize_timezone db.catalog to_tz with
    | .error e => .error e
    | .ok target_tz =>
      match parse_time_input db clock time_str source_tz with
      | .error e => .error e
      | .ok source_time =>
        .ok { source_time := source_time,
              target_time := astimezone db source_time target_tz,
              source_tz := source_tz,
              target_tz := target_tz }
/-- The zone catalog `self.all_timezones = sorted(available_timezones())`:
the sorted list of IANA time-zone keys supplied by the external zone
database (tzdata) the program runs against. -/
def all_timezones : List String :=
  ["Africa/Abidjan",
   "Africa/Accra",
   "Africa/Addis_Ababa",
   "Africa/Algiers",
   "Africa/Asmara",
   "Africa/Asmera",
   "Africa/Bamako",
   "Africa/Bangui",
   "Africa/Banjul",
   "Africa/Bissau",
   "Africa/Blantyre",
   "Africa/Brazzaville",
   "Africa/Bujumbura",
   "Africa/Cairo",
   "Africa/Casablanca",
   "Africa/Ceuta",
   "Africa/Conakry",
   "Africa/Dakar",
   "Africa/Dar_es_Salaam",
   "Africa/Djibouti",
   "Africa/Douala",
   "Africa/El_Aaiun",
   "Africa/Freetown",
   "Africa/Gaborone",
   "Africa/Harare",
   "Africa/Johannesburg",
   "Africa/Juba",
   "Africa/Kampala",
   "Africa/Khartoum",
   "Africa/Kigali",
   "Africa/Kinshasa",
   "Africa/Lagos",
   "Africa/Libreville",
   "Africa/Lome",
   "Africa/Luanda",
   "Africa/Lubumbashi",
   "Africa/Lusaka",
   "Africa/Malabo",
   "Africa/Maputo",
   "Africa/Maseru",
   "Africa/Mbabane",
   "Africa/Mogadishu",
   "Africa/Monrovia",
   "Africa/Nairobi",
   "Africa/Ndjamena",
   "Africa/Niamey",
   "Africa/Nouakchott",
   "Africa/Ouagadougou",
   "Africa/Porto-Novo",
   "Africa/Sao_Tome",
   "Africa/Timbuktu",
   "Africa/Tripoli",
   "Africa/Tunis",
   "Africa/Windhoek",
   "America/Adak",
   "America/Anchorage",
   "America/Anguilla",
   "America/Antigua",
   "America/Araguaina",
   "America/Argentina/Buenos_Aires",
   "America/Argentina/Catamarca",
   "America/Argentina/ComodRivadavia",
   "America/Argentina/Cordoba",
   "America/Argentina/Jujuy",
   "America/Argentina/La_Rioja",
   "America/Argentina/Mendoza",
   "America/Argentina/Rio_Gallegos",
   "America/Argentina/Salta",
   "America/Argentina/San_Juan",
   "America/Argentina/San_Luis",
   "America/Argentina/Tucuman",
   "America/Argentina/Ushuaia",
   "America/Aruba",
   "America/Asuncion",
   "America/Atikokan",
   "America/Atka",
   "America/Bahia",
   "America/Bahia_Banderas",
   "America/Barbados",
   "America/Belem",
   "America/Belize",
   "America/Blanc-Sablon",
   "America/Boa_Vista",
   "America/Bogota",
   "America/Boise",
   "America/Buenos_Aires",
   "America/Cambridge_Bay",
   "America/Campo_Grande",
   "America/Cancun",
   "America/Caracas",
   "America/Catamarca",
   "America/Cayenne",
   "America/Cayman",
   "America/Chicago",
   "America/Chihuahua",
   "America/Ciudad_Juarez",
   "America/Coral_Harbour",
   "America/Cordoba",
   "America/Costa_Rica",
   "America/Creston",
   "America/Cuiaba",
   "America/Curacao",
   "America/Danmarkshavn",
   "America/Dawson",
   "America/Dawson_Creek",
   "America/Denver",
   "America/Detroit",
   "America/Dominica",
   "America/Edmonton",
   "America/Eirunepe",
   "America/El_Salvador",
   "America/Ensenada",
   "America/Fort_Nelson",
   "America/Fort_Wayne",
   "America/Fortaleza",
   "America/Glace_Bay",
   "America/Godthab",
   "America/Goose_Bay",
   "America/Grand_Turk",
   "America/Grenada",
   "America/Guadeloupe",
   "America/Guatemala",
   "America/Guayaquil",
   "America/Guyana",
   "America/Halifax",
   "America/Havana",
   "America/Hermosillo",
   "America/Indiana/Indianapolis",
   "America/Indiana/Knox",
   "America/Indiana/Marengo",
   "America/Indiana/Petersburg",
   "America/Indiana/Tell_City",
   "America/Indiana/Vevay",
   "America/Indiana/Vincennes",
   "America/Indiana/Winamac",
   "America/Indianapolis",
   "America/Inuvik",
   "America/Iqaluit",
   "America/Jamaica",
   "America/Jujuy",
   "America/Juneau",
   "America/Kentucky/Louisville",
   "America/Kentucky/Monticello",
   "America/Knox_IN",
   "America/Kralendijk",
   "America/La_Paz",
   "America/Lima",
   "America/Los_Angeles",
   "America/Louisville",
   "America/Lower_Princes",
   "America/Maceio",
   "America/Managua",
   "America/Manaus",
   "America/Marigot",
   "America/Martinique",
   "America/Matamoros",
   "America/Mazatlan",
   "America/Mendoza",
   "America/Menominee",
   "America/Merida",
   "America/Metlakatla",
   "America/Mexico_City",
   "America/Miquelon",
   "America/Moncton",
   "America/Monterrey",
   "America/Montevideo",
   "America/Montreal",
   "America/Montserrat",
   "America/Nassau",
   "America/New_York",
   "America/Nipigon",
   "America/Nome",
   "America/Noronha",
   "America/North_Dakota/Beulah",
   "America/North_Dakota/Center",
   "America/North_Dakota/New_Salem",
   "America/Nuuk",
   "America/Ojinaga",
   "America/Panama",
   "America/Pangnirtung",
   "America/Paramaribo",
   "America/Phoenix",
   "America/Port-au-Prince",
   "America/Port_of_Spain",
   "America/Porto_Acre",
   "America/Porto_Velho",
   "America/Puerto_Rico",
   "America/Punta_Arenas",
   "America/Rainy_River",
   "America/Rankin_Inlet",
   "America/Recife",
   "America/Regina",
   "America/Resolute",
   "America/Rio_Branco",
   "America/Rosario",
   "America/Santa_Isabel",
   "America/Santarem",
   "America/Santiago",
   "America/Santo_Domingo",
   "America/Sao_Paulo",
   "America/Scoresbysund",
   "America/Shiprock",
   "America/Sitka",
   "America/St_Barthelemy",
   "America/St_Johns",
   "America/St_Kitts",
   "America/St_Lucia",
   "America/St_Thomas",
   "America/St_Vincent",
   "America/Swift_Current",
   "America/Tegucigalpa",
   "America/Thule",
   "America/Thunder_Bay",
   "America/Tijuana",
   "America/Toronto",
   "America/Tortola",
   "America/Vancouver",
   "America/Virgin",
   "America/Whitehorse",
   "America/Winnipeg",
   "America/Yakutat",
   "America/Yellowknife",
   "Antarctica/Casey",
   "Antarctica/Davis",
   "Antarctica/DumontDUrville",
   "Antarctica/Macquarie",
   "Antarctica/Mawson",
   "Antarctica/McMurdo",
   "Antarctica/Palmer",
   "Antarctica/Rothera",
   "Antarctica/South_Pole",
   "Antarctica/Syowa",
   "Antarctica/Troll",
   "Antarctica/Vostok",
   "Arctic/Longyearbyen",
   "Asia/Aden",
   "Asia/Almaty",
   "Asia/Amman",
   "Asia/Anadyr",
   "Asia/Aqtau",
   "Asia/Aqtobe",
   "Asia/Ashgabat",
   "Asia/Ashkhabad",
   "Asia/Atyrau",
   "Asia/Baghdad",
   "Asia/Bahrain",
   "Asia/Baku",
   "Asia/Bangkok",
   "Asia/Barnaul",
   "Asia/Beirut",
   "Asia/Bishkek",
   "Asia/Brunei",
   "Asia/Calcutta",
   "Asia/Chita",
   "Asia/Choibalsan",
   "Asia/Chongqing",
   "Asia/Chungking",
   "Asia/Colombo",
   "Asia/Dacca",
   "Asia/Damascus",
   "Asia/Dhaka",
   "Asia/Dili",
   "Asia/Dubai",
   "Asia/Dushanbe",
   "Asia/Famagusta",
   "Asia/Gaza",
   "Asia/Harbin",
   "Asia/Hebron",
   "Asia/Ho_Chi_Minh",
   "Asia/Hong_Kong",
   "Asia/Hovd",
   "Asia/Irkutsk",
   "Asia/Istanbul",
   "Asia/Jakarta",
   "Asia/Jayapura",
   "Asia/Jerusalem",
   "Asia/Kabul",
   "Asia/Kamchatka",
   "Asia/Karachi",
   "Asia/Kashgar",
   "Asia/Kathmandu",
   "Asia/Katmandu",
   "Asia/Khandyga",
   "Asia/Kolkata",
   "Asia/Krasnoyarsk",
   "Asia/Kuala_Lumpur",
   "Asia/Kuching",
   "Asia/Kuwait",
   "Asia/Macao",
   "Asia/Macau",
   "Asia/Magadan",
   "Asia/Makassar",
   "Asia/Manila",
   "Asia/Muscat",
   "Asia/Nicosia",
   "Asia/Novokuznetsk",
   "Asia/Novosibirsk",
   "Asia/Omsk",
   "Asia/Oral",
   "Asia/Phnom_Penh",
   "Asia/Pontianak",
   "Asia/Pyongyang",
   "Asia/Qatar",
   "Asia/Qostanay",
   "Asia/Qyzylorda",
   "Asia/Rangoon",
   "Asia/Riyadh",
   "Asia/Saigon",
   "Asia/Sakhalin",
   "Asia/Samarkand",
   "Asia/Seoul",
   "Asia/Shanghai",
   "Asia/Singapore",
   "Asia/Srednekolymsk",
   "Asia/Taipei",
   "Asia/Tashkent",
   "Asia/Tbilisi",
   "Asia/Tehran",
   "Asia/Tel_Aviv",
   "Asia/Thimbu",
   "Asia/Thimphu",
   "Asia/Tokyo",
   "Asia/Tomsk",
   "Asia/Ujung_Pandang",
   "Asia/Ulaanbaatar",
   "Asia/Ulan_Bator",
   "Asia/Urumqi",
   "Asia/Ust-Nera",
   "Asia/Vientiane",
   "Asia/Vladivostok",
   "Asia/Yakutsk",
   "Asia/Yangon",
   "Asia/Yekaterinburg",
   "Asia/Yerevan",
   "Atlantic/Azores",
   "Atlantic/Bermuda",
   "Atlantic/Canary",
   "Atlantic/Cape_Verde",
   "Atlantic/Faeroe",
   "Atlantic/Faroe",
   "Atlantic/Jan_Mayen",
   "Atlantic/Madeira",
   "Atlantic/Reykjavik",
   "Atlantic/South_Georgia",
   "Atlantic/St_Helena",
   "Atlantic/Stanley",
   "Australia/ACT",
   "Australia/Adelaide",
   "Australia/Brisbane",
   "Australia/Broken_Hill",
   "Australia/Canberra",
   "Australia/Currie",
   "Australia/Darwin",
   "Australia/Eucla",
   "Australia/Hobart",
   "Australia/LHI",
   "Australia/Lindeman",
   "Australia/Lord_Howe",
   "Australia/Melbourne",
   "Australia/NSW",
   "Australia/North",
   "Australia/Perth",
   "Australia/Queensland",
   "Australia/South",
   "Australia/Sydney",
   "Australia/Tasmania",
   "Australia/Victoria",
   "Australia/West",
   "Australia/Yancowinna",
   "Brazil/Acre",
   "Brazil/DeNoronha",
   "Brazil/East",
   "Brazil/West",
   "CET",
   "CST6CDT",
   "Canada/Atlantic",
   "Canada/Central",
   "Canada/Eastern",
   "Canada/Mountain",
   "Canada/Newfoundland",
   "Canada/Pacific",
   "Canada/Saskatchewan",
   "Canada/Yukon",
   "Chile/Continental",
   "Chile/EasterIsland",
   "Cuba",
   "EET",
   "EST",
   "EST5EDT",
   "Egypt",
   "Eire",
   "Etc/GMT",
   "Etc/GMT+0",
   "Etc/GMT+1",
   "Etc/GMT+10",
   "Etc/GMT+11",
   "Etc/GMT+12",
   "Etc/GMT+2",
   "Etc/GMT+3",
   "Etc/GMT+4",
   "Etc/GMT+5",
   "Etc/GMT+6",
   "Etc/GMT+7",
   "Etc/GMT+8",
   "Etc/GMT+9",
   "Etc/GMT-0",
   "Etc/GMT-1",
   "Etc/GMT-10",
   "Etc/GMT-11",
   "Etc/GMT-12",
   "Etc/GMT-13",
   "Etc/GMT-14",
   "Etc/GMT-2",
   "Etc/GMT-3",
   "Etc/GMT-4",
   "Etc/GMT-5",
   "Etc/GMT-6",
   "Etc/GMT-7",
   "Etc/GMT-8",
   "Etc/GMT-9",
   "Etc/GMT0",
   "Etc/Greenwich",
   "Etc/UCT",
   "Etc/UTC",
   "Etc/Universal",
   "Etc/Zulu",
   "Europe/Amsterdam",
   "Europe/Andorra",
   "Europe/Astrakhan",
   "Europe/Athens",
   "Europe/Belfast",
   "Europe/Belgrade",
   "Europe/Berlin",
   "Europe/Bratislava",
   "Europe/Brussels",
   "Europe/Bucharest",
   "Europe/Budapest",
   "Europe/Busingen",
   "Europe/Chisinau",
   "Europe/Copenhagen",
   "Europe/Dublin",
   "Europe/Gibraltar",
   "Europe/Guernsey",
   "Europe/Helsinki",
   "Europe/Isle_of_Man",
   "Europe/Istanbul",
   "Europe/Jersey",
   "Europe/Kaliningrad",
   "Europe/Kiev",
   "Europe/Kirov",
   "Europe/Kyiv",
   "Europe/Lisbon",
   "Europe/Ljubljana",
   "Europe/London",
   "Europe/Luxembourg",
   "Europe/Madrid",
   "Europe/Malta",
   "Europe/Mariehamn",
   "Europe/Minsk",
   "Europe/Monaco",
   "Europe/Moscow",
   "Europe/Nicosia",
   "Europe/Oslo",
   "Europe/Paris",
   "Europe/Podgorica",
   "Europe/Prague",
   "Europe/Riga",
   "Europe/Rome",
   "Europe/Samara",
   "Europe/San_Marino",
   "Europe/Sarajevo",
   "Europe/Saratov",
   "Europe/Simferopol",
   "Europe/Skopje",
   "Europe/Sofia",
   "Europe/Stockholm",
   "Europe/Tallinn",
   "Europe/Tirane",
   "Europe/Tiraspol",
   "Europe/Ulyanovsk",
   "Europe/Uzhgorod",
   "Europe/Vaduz",
   "Europe/Vatican",
   "Europe/Vienna",
   "Europe/Vilnius",
   "Europe/Volgograd",
   "Europe/Warsaw",
   "Europe/Zagreb",
   "Europe/Zaporozhye",
   "Europe/Zurich",
   "Factory",
   "GB",
   "GB-Eire",
   "GMT",
   "GMT+0",
   "GMT-0",
   "GMT0",
   "Greenwich",
   "HST",
   "Hongkong",
   "Iceland",
   "Indian/Antananarivo",
   "Indian/Chagos",
   "Indian/Christmas",
   "Indian/Cocos",
   "Indian/Comoro",
   "Indian/Kerguelen",
   "Indian/Mahe",
   "Indian/Maldives",
   "Indian/Mauritius",
   "Indian/Mayotte",
   "Indian/Reunion",
   "Iran",
   "Israel",
   "Jamaica",
   "Japan",
   "Kwajalein",
   "Libya",
   "MET",
   "MST",
   "MST7MDT",
   "Mexico/BajaNorte",
   "Mexico/BajaSur",
   "Mexico/General",
   "NZ",
   "NZ-CHAT",
   "Navajo",
   "PRC",
   "PST8PDT",
   "Pacific/Apia",
   "Pacific/Auckland",
   "Pacific/Bougainville",
   "Pacific/Chatham",
   "Pacific/Chuuk",
   "Pacific/Easter",
   "Pacific/Efate",
   "Pacific/Enderbury",
   "Pacific/Fakaofo",
   "Pacific/Fiji",
   "Pacific/Funafuti",
   "Pacific/Galapagos",
   "Pacific/Gambier",
   "Pacific/Guadalcanal",
   "Pacific/Guam",
   "Pacific/Honolulu",
   "Pacific/Johnston",
   "Pacific/Kanton",
   "Pacific/Kiritimati",
   "Pacific/Kosrae",
   "Pacific/Kwajalein",
   "Pacific/Majuro",
   "Pacific/Marquesas",
   "Pacific/Midway",
   "Pacific/Nauru",
   "Pacific/Niue",
   "Pacific/Norfolk",
   "Pacific/Noumea",
   "Pacific/Pago_Pago",
   "Pacific/Palau",
   "Pacific/Pitcairn",
   "Pacific/Pohnpei",
   "Pacific/Ponape",
   "Pacific/Port_Moresby",
   "Pacific/Rarotonga",
   "Pacific/Saipan",
   "Pacific/Samoa",
   "Pacific/Tahiti",
   "Pacific/Tarawa",
   "Pacific/Tongatapu",
   "Pacific/Truk",
   "Pacific/Wake",
   "Pacific/Wallis",
   "Pacific/Yap",
   "Poland",
   "Portugal",
   "ROC",
   "ROK",
   "Singapore",
   "Turkey",
   "UCT",
   "US/Alaska",
   "US/Aleutian",
   "US/Arizona",
   "US/Central",
   "US/East-Indiana",
   "US/Eastern",
   "US/Hawaii",
   "US/Indiana-Starke",
   "US/Michigan",
   "US/Mountain",
   "US/Pacific",
   "US/Samoa",
   "UTC",
   "Universal",
   "W-SU",
   "WET",
   "Zulu",
   "localtime"]

/-- A concrete database instance for concrete evaluations: the real catalog
with an offset oracle that reports offset 0 everywhere (a legal database;
all claims about offsets are quantified over arbitrary databases). -/
def stdDb : TzDb :=
  { catalog := all_timezones,
    offsetAt := fun _ _ => 0,
    offsetOfWall := fun _ _ => 0 }

/-- A concrete clock: epoch instant, machine-local date 1970-01-01. -/
def clk0 : Clock :=
  { nowAbs := 0, todayY := 1970, todayM := 1, todayD := 1 }

/-- A concrete clock one calendar day later (same absolute instant). -/
def clk1 : Clock :=
  { nowAbs := 0, todayY := 1970, todayM := 1, todayD := 2 }

set_option maxRecDepth 100000

/-- `startsList` decides the initial-segment relation. -/
theorem startsList_iff (p : List Char) :
    ∀ l, startsList p l = true ↔ ∃ t, l = p ++ t := by
  induction p with
  | nil => intro l; simp [startsList]
  | cons a as ih =>
    intro l
    cases l with
    | nil => simp [startsList]
    | cons b bs =>
      simp only [startsList, Bool.and_eq_true, beq_iff_eq, ih, List.cons_append,
        List.cons.injEq]
      constructor
      · rintro ⟨rfl, t, rfl⟩; exact ⟨t, rfl, rfl⟩
      · rintro ⟨t, rfl, rfl⟩; exact ⟨rfl, t, rfl⟩

/-- `occursIn` decides contiguous-substring occurrence. -/
theorem occursIn_iff (pat l : List Char) :
    occursIn pat l = true ↔ ∃ a b, l = a ++ pat ++ b := by
  induction l with
  | nil =>
    simp only [occursIn, List.isEmpty_iff]
    constructor
    · rintro rfl; exact ⟨[], [], rfl⟩
    · rintro ⟨a, b, h⟩
      rcases List.append_eq_nil.mp (List.append_eq_nil.mp h.symm).1 with ⟨-, h2⟩
      exact h2
  | cons c rest ih =>
    simp only [occursIn, Bool.or_eq_true, startsList_iff, ih]
    constructor
    · rintro (⟨t, ht⟩ | ⟨a, b, rfl⟩)
      · exact ⟨[], t, by simpa using ht⟩
      · exact ⟨c :: a, b, rfl⟩
    · rintro ⟨a, b, h⟩
      cases a with
      | nil => exact Or.inl ⟨b, by simpa using h⟩
      | cons x xs =>
        simp only [List.cons_append, List.cons.injEq] at h
        exact Or.inr ⟨xs, b, h.2⟩

/-- The empty pattern occurs in every list (Python: `'' in s` is `True`). -/
theorem occursIn_nil (l : List Char) : occursIn [] l = true := by
  cases l <;> simp [occursIn, startsList]

/-- First-match characterisation of `List.find?`. -/
theorem find?_first {α : Type} (p : α → Bool) :
    ∀ (l : List α) (z : α), l.find? p = some z ↔
      ∃ a b, l = a ++ z :: b ∧ p z = true ∧ ∀ w ∈ a, p w = false := by
  intro l
  induction l with
  | nil => intro z; simp
  | cons x xs ih =>
    intro z
    by_cases hx : p x = true
    · rw [List.find?_cons_of_pos _ hx]
      constructor
      · intro h
        cases h
        exact ⟨[], xs, rfl, hx, by simp⟩
      · rintro ⟨a, b, heq, hz, hall⟩
        cases a with
        | nil =>
          simp only [List.nil_append, List.cons.injEq] at heq
          rw [heq.1]
        | cons a0 as =>
          simp only [List.cons_append, List.cons.injEq] at heq
          have hfalse := hall a0 (by simp)
          rw [← heq.1, hx] at hfalse
          exact absurd hfalse (by simp)
    · rw [List.find?_cons_of_neg _ (by simpa using hx)]
      rw [ih]
      constructor
      · rintro ⟨a, b, rfl, hz, hall⟩
        refine ⟨x :: a, b, rfl, hz, ?_⟩
        intro w hw
        rcases List.mem_cons.mp hw with rfl | hw'
        · simpa using hx
        · exact hall w hw'
      · rintro ⟨a, b, heq, hz, hall⟩
        cases a with
        | nil =>
          simp only [List.nil_append, List.cons.injEq] at heq
          exact absurd (heq.1 ▸ hz) hx
        | cons a0 as =>
          simp only [List.cons_append, List.cons.injEq] at heq
          exact ⟨as, b, heq.2, hz, fun w hw => hall w (by simp [hw])⟩

/-- Every failure of `normalize_timezone` carries the `Unknown timezone`
message built from the stripped token. -/
theorem normalize_error_msg (cat : List String) (tok m : String)
    (h : normalize_timezone cat tok = .error m) :
    m = "Unknown timezone: " ++ stripStr tok := by
  simp only [normalize_timezone] at h
  split at h
  · exact absurd h (by simp)
  · split at h
    · exact absurd h (by simp)
    · split at h
      · exact absurd h (by simp)
      · cases h; rfl

/-- Every failure of `parse_time_input` carries the `Could not parse time`
message built from the stripped expression. -/
theorem parse_error_msg (db : TzDb) (clock : Clock) (s tz m : String)
    (h : parse_time_input db clock s tz = .error m) :
    m = "Could not parse time: " ++ stripStr s := by
  simp only [parse_time_input] at h
  split at h
  · exact absurd h (by simp)
  · split at h
    · exact absurd h (by simp)
    · cases h; rfl

/-- Inversion of a successful conversion: the target instant is the source
instant re-rendered with `astimezone` in the resolved target zone. -/
theorem convert_ok_inv (db : TzDb) (clock : Clock) (s f t : String)
    (r : ConversionSuccess) (h : convert_time db clock s f t = .ok r) :
    r.target_time = astimezone db r.source_time r.target_tz := by
  simp only [convert_time] at h
  split at h
  · exact absurd h (by simp)
  · split at h
    · exact absurd h (by simp)
    · split at h
      · exact absurd h (by simp)
      · cases h; rfl

/-- `astimezone` never changes the absolute instant. -/
theorem absoluteTime_astimezone (db : TzDb) (dt : Datetime) (z : String) :
    absoluteTime (astimezone db dt z) = absoluteTime dt := by
  simp [astimezone, absoluteTime]

/-- C1: for a token that is neither (case-insensitively) an abbreviation key
nor an exact catalog member, `normalize_timezone` returns the first catalog
entry (in catalog order, i.e. sorted order) whose lower-cased form contains
the lower-cased stripped token as a contiguous substring, and fails with the
`Unknown timezone` error exactly when no entry contains it. -/
theorem c1_fuzzy_first_match (cat : List String) (tok : String)
    (h1 : abbrevLookup (upperStr (stripStr tok)) = none)
    (h2 : cat.contains (stripStr tok) = false) :
    (∀ z : String, normalize_timezone cat tok = .ok z ↔
      ∃ a b, cat = a ++ z :: b ∧
        (∃ u v, pyLower z.data = u ++ pyLower (stripStr tok).data ++ v) ∧
        ∀ w ∈ a, ¬ ∃ u v, pyLower w.data = u ++ pyLower (stripStr tok).data ++ v)
    ∧ (normalize_timezone cat tok = .error ("Unknown timezone: " ++ stripStr tok)
        ↔ ∀ w ∈ cat,
            ¬ ∃ u v, pyLower w.data = u ++ pyLower (stripStr tok).data ++ v) := by
  have hp : ∀ w : String,
      (occursIn (pyLower (stripStr tok).data) (pyLower w.data) = true) ↔
        ∃ u v, pyLower w.data = u ++ pyLower (stripStr tok).data ++ v :=
    fun w => occursIn_iff _ _
  constructor
  · intro z
    simp only [normalize_timezone, h1, h2, Bool.false_eq_true, if_false]
    cases hf : cat.find?
        (fun tz => occursIn (pyLower (stripStr tok).data) (pyLower tz.data)) with
    | none =>
      simp only [hf]
      constructor
      · intro h; exact absurd h (by simp)
      · rintro ⟨a, b, rfl, hz, -⟩
        rw [List.find?_eq_none] at hf
        exact absurd ((hp z).mpr hz) (hf z (by simp))
    | some tz =>
      simp only [hf]
      rw [find?_first] at hf
      obtain ⟨a, b, rfl, htz, hall⟩ := hf
      constructor
      · intro h
        cases h
        refine ⟨a, b, rfl, (hp z).mp htz, fun w hw hc => ?_⟩
        have hfw := hall w hw
        rw [(hp w).mpr hc] at hfw
        exact absurd hfw (by simp)
      · rintro ⟨a', b', heq, hz, hall'⟩
        have h1' : (a ++ tz :: b).find?
            (fun tz => occursIn (pyLower (stripStr tok).data) (pyLower tz.data))
              = some tz := by
          rw [find?_first]; exact ⟨a, b, rfl, htz, hall⟩
        have h2' : (a ++ tz :: b).find?
            (fun tz => occursIn (pyLower (stripStr tok).data) (pyLower tz.data))
              = some z := by
          rw [find?_first]
          refine ⟨a', b', heq, (hp z).mpr hz, fun w hw => ?_⟩
          cases hcw : occursIn (pyLower (stripStr tok).data) (pyLower w.data) with
          | false => rfl
          | true => exact absurd ((hp w).mp hcw) (hall' w hw)
        rw [h1'] at h2'
        cases h2'
        rfl
  · simp only [normalize_timezone, h1, h2, Bool.false_eq_true, if_false]
    cases hf : cat.find?
        (fun tz => occursIn (pyLower (stripStr tok).data) (pyLower tz.data)) with
    | none =>
      simp only [hf]
      rw [List.find?_eq_none] at hf
      constructor
      · intro _ w hw hc
        exact absurd ((hp w).mpr hc) (hf w hw)
      · intro _; trivial
    | some tz =>
      simp only [hf]
      constructor
      · intro h; exact absurd h (by simp)
      · intro hall
        have htz := List.find?_some hf
        have hmem := List.mem_of_find?_eq_some hf
        exact absurd ((hp tz).mp htz) (hall tz hmem)

/-- C1 witness: `" tokyo "` is neither an abbreviation nor an exact member of
the given catalog, and resolves to the first entry containing `"tokyo"`. -/
theorem c1_fuzzy_first_match_witness :
    normalize_timezone ["Europe/London", "Asia/Tokyo", "Asia/Novokuznetsk"]
      " tokyo " = .ok "Asia/Tokyo" :=
  ((c1_fuzzy_first_match ["Europe/London", "Asia/Tokyo", "Asia/Novokuznetsk"]
      " tokyo " (by decide) (by decide)).1 "Asia/Tokyo").mpr
    ⟨["Europe/London"], ["Asia/Novokuznetsk"], by decide,
      ⟨['a', 's', 'i', 'a', '/'], [], by decide⟩,
      by simp only [← occursIn_iff]; decide⟩

/-- C2: if the stripped, upper-cased token is a key of the abbreviation
table, `normalize_timezone` returns the mapped canonical zone, for every
catalog whatsoever — abbreviation lookup precedes and overrides both the
exact and the fuzzy catalog passes. -/
theorem c2_abbrev_precedence (cat : List String) (tok z : String)
    (h : abbrevLookup (upperStr (stripStr tok)) = some z) :
    normalize_timezone cat tok = .ok z := by
  simp only [normalize_timezone, h]

/-- C2 witness: `"est"` maps through the abbreviation table to
`America/New_York` even though the real catalog also has the exact entry
`"EST"` and entries containing `"est"` as a substring. -/
theorem c2_abbrev_precedence_witness :
    normalize_timezone all_timezones "est" = .ok "America/New_York" :=
  c2_abbrev_precedence all_timezones "est" "America/New_York" (by decide)

/-- C3 counterexample: `"EST"` is an exact member of the real zone catalog,
yet `resolve` does not return it unchanged — the abbreviation pass fires
first and yields `America/New_York`. -/
theorem c3_exact_counterexample :
    all_timezones.contains "EST" = true ∧
    normalize_timezone all_timezones "EST" = .ok "America/New_York" ∧
    "America/New_York" ≠ "EST" :=
  ⟨by decide, by decide, by decide⟩

/-- C3 amended: every catalog member with no surrounding whitespace whose
upper-cased form is not an abbreviation key is returned unchanged. -/
theorem c3_exact_amended (cat : List String) (z : String)
    (h1 : cat.contains z = true) (h2 : stripStr z = z)
    (h3 : abbrevLookup (upperStr z) = none) :
    normalize_timezone cat z = .ok z := by
  simp only [normalize_timezone, h2, h3, h1, if_true]

/-- C3 amended witness: `Asia/Tokyo` is in the real catalog, is not an
abbreviation key, and resolves to itself. -/
theorem c3_exact_amended_witness :
    normalize_timezone all_timezones "Asia/Tokyo" = .ok "Asia/Tokyo" :=
  c3_exact_amended all_timezones "Asia/Tokyo" (by decide) (by decide) (by decide)

/-- C10: a token that strips to the empty string is not an abbreviation key
and (in a catalog of non-empty entries) not an exact member, and the empty
string occurs in every entry, so the fuzzy pass returns the head of the
catalog — the lexicographically first entry, since the catalog is sorted. -/
theorem c10_empty_token (cat : List String) (tok z : String) (rest : List String)
    (hcat : cat = z :: rest) (h1 : stripStr tok = "")
    (h2 : ∀ w ∈ cat, w ≠ "") :
    normalize_timezone cat tok = .ok z := by
  subst hcat
  have hc : (z :: rest).contains "" = false := by
    cases hcontains : (z :: rest).contains "" with
    | false => rfl
    | true =>
      have hm : "" ∈ z :: rest := by
        have := hcontains
        simp only [List.contains] at this
        exact List.mem_of_elem_eq_true this
      exact absurd rfl (h2 "" hm)
  simp only [normalize_timezone, h1]
  rw [show abbrevLookup (upperStr "") = none from rfl, hc]
  simp only [Bool.false_eq_true, if_false]
  rw [List.find?_cons_of_pos _ (by
    show occursIn (pyLower (String.data "")) (pyLower z.data) = true
    exact occursIn_nil _)]

/-- C10 witness: a whitespace-only token resolves, on the real catalog, to
its first entry `Africa/Abidjan` rather than failing. -/
theorem c10_empty_token_witness :
    normalize_timezone all_timezones "  " = .ok "Africa/Abidjan" :=
  c10_empty_token all_timezones "  " "Africa/Abidjan" all_timezones.tail
    rfl (by decide) (by decide)

/-- C5: every successful conversion preserves the absolute instant — the
target instant equals the source instant as a point in absolute time — and
re-rendering the target instant back in the source zone again yields the
original absolute instant, for every zone database (hence independently of
whatever DST offset rules it encodes). -/
theorem c5_preserves_instant (db : TzDb) (clock : Clock) (s f t : String)
    (r : ConversionSuccess) (h : convert_time db clock s f t = .ok r) :
    absoluteTime r.target_time = absoluteTime r.source_time ∧
    absoluteTime (astimezone db r.target_time r.source_tz)
      = absoluteTime r.source_time := by
  have ht := convert_ok_inv db clock s f t r h
  constructor
  · rw [ht, absoluteTime_astimezone]
  · rw [absoluteTime_astimezone, ht, absoluteTime_astimezone]

/-- C5 witness: a concrete successful conversion of `15:30` from `UTC` to
`JST` preserves the absolute instant both ways. -/
theorem c5_preserves_instant_witness :
    absoluteTime (Datetime.mk 930 0 "Asia/Tokyo")
        = absoluteTime (Datetime.mk 930 0 "UTC") ∧
    absoluteTime (astimezone stdDb (Datetime.mk 930 0 "Asia/Tokyo") "UTC")
        = absoluteTime (Datetime.mk 930 0 "UTC") :=
  c5_preserves_instant stdDb clk0 "15:30" "UTC" "JST"
    ⟨⟨930, 0, "UTC"⟩, ⟨930, 0, "Asia/Tokyo"⟩, "UTC", "Asia/Tokyo"⟩ (by decide)

/-- C6: `convert_time` is total and two-variant — for every input triple it
returns either the full four-field success record or an error message, and
every error message is one of the two recoverable kinds re-expressed as data
(`Unknown timezone: _` from zone resolution, `Could not parse time: _` from
time parsing); no other fault shape can escape. -/
theorem c6_two_variant_total (db : TzDb) (clock : Clock) (s f t : String) :
    (∃ r, convert_time db clock s f t = .ok r) ∨
    (∃ m, convert_time db clock s f t = .error m ∧
      ((∃ x, m = "Unknown timezone: " ++ x) ∨
       (∃ x, m = "Could not parse time: " ++ x))) := by
  cases hf : normalize_timezone db.catalog f with
  | error m =>
    right
    refine ⟨m, ?_, Or.inl ⟨stripStr f, normalize_error_msg _ _ _ hf⟩⟩
    simp [convert_time, hf]
  | ok zf =>
    cases hg : normalize_timezone db.catalog t with
    | error m =>
      right
      refine ⟨m, ?_, Or.inl ⟨stripStr t, normalize_error_msg _ _ _ hg⟩⟩
      simp [convert_time, hf, hg]
    | ok zt =>
      cases hp : parse_time_input db clock s zf with
      | error m =>
        right
        refine ⟨m, ?_, Or.inr ⟨stripStr s, parse_error_msg _ _ _ _ _ hp⟩⟩
        simp [convert_time, hf, hg, hp]
      | ok st =>
        left
        exact ⟨⟨st, astimezone db st zt, zf, zt⟩,
          by simp [convert_time, hf, hg, hp]⟩

/-- C7: zone resolution happens before time parsing and short-circuits.  If
resolving the from-token fails with message `m`, the whole conversion is
`error m` for every time expression (so the expression is never parsed);
likewise when the from-token resolves but the to-token fails. -/
theorem c7_resolution_short_circuit (db : TzDb) (clock : Clock)
    (s f t m : String) :
    (normalize_timezone db.catalog f = .error m →
      convert_time db clock s f t = .error m) ∧
    (∀ zf, normalize_timezone db.catalog f = .ok zf →
      normalize_timezone db.catalog t = .error m →
      convert_time db clock s f t = .error m) := by
  constructor
  · intro h; simp [convert_time, h]
  · intro zf h1 h2; simp [convert_time, h1, h2]

/-- C7 witness: `convert("3pm", "Mars/Phobos", "UTC")` on the real catalog
fails with the unknown-zone message for the from-token. -/
theorem c7_resolution_short_circuit_witness :
    convert_time stdDb clk0 "3pm" "Mars/Phobos" "UTC"
      = .error "Unknown timezone: Mars/Phobos" :=
  (c7_resolution_short_circuit stdDb clk0 "3pm" "Mars/Phobos" "UTC"
    "Unknown timezone: Mars/Phobos").1 (by decide)

/-- C9 counterexample: `"3pm"` is not the `"now"` form, yet two calls to
`parse_time_input` with the same expression and source zone return different
instants when the machine-local date differs between the calls (the spec
itself notes the date default shifts at midnight). -/
theorem c9_counterexample :
    pyLower (stripStr "3pm").data ≠ ['n', 'o', 'w'] ∧
    parse_time_input stdDb clk0 "3pm" "UTC" = .ok ⟨900, 0, "UTC"⟩ ∧
    parse_time_input stdDb clk1 "3pm" "UTC" = .ok ⟨2340, 0, "UTC"⟩ ∧
    parse_time_input stdDb clk1 "3pm" "UTC"
      ≠ parse_time_input stdDb clk0 "3pm" "UTC" := by
  decide

/-- C9 amended: for every expression other than the `"now"` form, the parse
result depends only on the expression, the source zone, the database and the
machine-local date — not on the instant of the call: two calls under the
same machine-local date return equal instants (while `"now"` reads the
current instant). -/
theorem c9_determinism_amended (db : TzDb) (n1 n2 y mo d : Int) (s z : String)
    (h : pyLower (stripStr s).data ≠ ['n', 'o', 'w']) :
    parse_time_input db ⟨n1, y, mo, d⟩ s z
      = parse_time_input db ⟨n2, y, mo, d⟩ s z := by
  simp only [parse_time_input]
  rw [if_neg h, if_neg h]
  rfl

/-- C9 amended witness: two calls on `"15:30"` at different instants of the
same machine-local day agree. -/
theorem c9_determinism_amended_witness :
    parse_time_input stdDb ⟨5, 1970, 1, 1⟩ "15:30" "UTC"
      = parse_time_input stdDb ⟨99, 1970, 1, 1⟩ "15:30" "UTC" :=
  c9_determinism_amended stdDb 5 99 1970 1 1 "15:30" "UTC" (by decide)

/-- A digit character is not a colon. -/
theorem digit_ne_colon {c : Char} (h : c.isDigit = true) : (c == ':') = false := by
  rw [beq_eq_false_iff_ne]
  rintro rfl
  exact absurd h (by decide)

/-- Lower-casing fixes digit characters. -/
theorem digit_toLower {c : Char} (h : c.isDigit = true) : c.toLower = c := by
  have h2 : c.val ≤ 57 := by
    simp only [Char.isDigit, Bool.and_eq_true, decide_eq_true_eq] at h
    exact h.2
  have h3 : c.toNat ≤ 57 := UInt32.toNat_le_of_le (by decide) h2
  show (if c.toNat ≥ 65 ∧ c.toNat ≤ 90 then Char.ofNat (c.toNat + 32) else c) = c
  rw [if_neg (by omega)]

/-- A string whose first character is a digit is not (case-insensitively)
the string `now`. -/
theorem digit_not_now {c : Char} {rest : List Char} (h : c.isDigit = true) :
    pyLower (c :: rest) ≠ ['n', 'o', 'w'] := by
  intro heq
  simp only [pyLower, List.map_cons, List.cons.injEq] at heq
  rw [digit_toLower h] at heq
  obtain ⟨rfl, -⟩ := heq
  exact absurd h (by decide)

/-- A `shape1` match starts with a digit. -/
theorem shape1_head (c : Char) (r : List Char) (h : shape1 (c :: r) = true) :
    c.isDigit = true := by
  rcases r with _ | ⟨c1, _ | ⟨c2, _ | ⟨c3, _ | ⟨c4, rest⟩⟩⟩⟩ <;> simp_all [shape1]

/-- A `shape2` match starts with a digit. -/
theorem shape2_head (c : Char) (r : List Char) (h : shape2 (c :: r) = true) :
    c.isDigit = true := by
  rcases r with _ | ⟨c1, _ | ⟨c2, _ | ⟨c3, _ | ⟨c4, _ | ⟨c5, _ | ⟨c6, _ |
    ⟨c7, rest⟩⟩⟩⟩⟩⟩⟩ <;> simp_all [shape2]

/-- A `shape3` match starts with a digit. -/
theorem shape3_head (c : Char) (r : List Char) (h : shape3 (c :: r) = true) :
    c.isDigit = true := by
  rcases r with _ | ⟨c1, _ | ⟨c2, _ | ⟨c3, _ | ⟨c4, _ | ⟨c5, rest⟩⟩⟩⟩⟩ <;>
    simp_all [shape3]

/-- A `shape4` match starts with a digit. -/
theorem shape4_head (c : Char) (r : List Char) (h : shape4 (c :: r) = true) :
    c.isDigit = true := by
  rcases r with _ | ⟨c1, _ | ⟨c2, _ | ⟨c3, _ | ⟨c4, _ | ⟨c5, _ | ⟨c6, _ |
    ⟨c7, _ | ⟨c8, _ | ⟨c9, rest⟩⟩⟩⟩⟩⟩⟩⟩⟩ <;> simp_all [shape4]

/-- A shape match is non-empty and starts with a digit. -/
theorem shape_split (l : List Char)
    (h : shape1 l = true ∨ shape2 l = true ∨ shape3 l = true ∨ shape4 l = true) :
    ∃ c r, l = c :: r ∧ c.isDigit = true := by
  cases l with
  | nil =>
    rcases h with h | h | h | h <;> exact absurd h (by simp [shape1, shape2, shape3, shape4])
  | cons c r =>
    refine ⟨c, r, rfl, ?_⟩
    rcases h with h | h | h | h
    · exact shape1_head c r h
    · exact shape2_head c r h
    · exact shape3_head c r h
    · exact shape4_head c r h

/-- Shape disjointness: a `shape1` match is not a `shape2` match. -/
theorem shape1_not_shape2 (l : List Char) (h : shape1 l = true) :
    shape2 l = false := by
  rcases l with _ | ⟨c0, _ | ⟨c1, _ | ⟨c2, _ | ⟨c3, _ | ⟨c4, rest⟩⟩⟩⟩⟩ <;>
    simp_all [shape1, shape2]

/-- Shape disjointness: a `shape1` match is not a `shape3` match (the second
character of a `shape1` match is a digit, never the colon `shape3` needs). -/
theorem shape1_not_shape3 (l : List Char) (h : shape1 l = true) :
    shape3 l = false := by
  rcases l with _ | ⟨c0, _ | ⟨c1, _ | ⟨c2, _ | ⟨c3, _ | ⟨c4, rest⟩⟩⟩⟩⟩ <;>
    simp_all [shape1, shape3, digit_ne_colon]

/-- Shape disjointness: a `shape1` match is not a `shape4` match. -/
theorem shape1_not_shape4 (l : List Char) (h : shape1 l = true) :
    shape4 l = false := by
  rcases l with _ | ⟨c0, _ | ⟨c1, _ | ⟨c2, _ | ⟨c3, _ | ⟨c4, rest⟩⟩⟩⟩⟩ <;>
    simp_all [shape1, shape4]

/-- Shape disjointness: a `shape2` match is not a `shape3` match. -/
theorem shape2_not_shape3 (l : List Char) (h : shape2 l = true) :
    shape3 l = false := by
  rcases l with _ | ⟨c0, _ | ⟨c1, _ | ⟨c2, _ | ⟨c3, _ | ⟨c4, _ | ⟨c5, _ | ⟨c6,
    _ | ⟨c7, rest⟩⟩⟩⟩⟩⟩⟩⟩ <;> simp_all [shape2, shape3]

/-- Shape disjointness: a `shape2` match is not a `shape4` match. -/
theorem shape2_not_shape4 (l : List Char) (h : shape2 l = true) :
    shape4 l = false := by
  rcases l with _ | ⟨c0, _ | ⟨c1, _ | ⟨c2, _ | ⟨c3, _ | ⟨c4, _ | ⟨c5, _ | ⟨c6,
    _ | ⟨c7, rest⟩⟩⟩⟩⟩⟩⟩⟩ <;> simp_all [shape2, shape4]

/-- Shape disjointness: a `shape3` match is not a `shape4` match. -/
theorem shape3_not_shape4 (l : List Char) (h : shape3 l = true) :
    shape4 l = false := by
  rcases l with _ | ⟨c0, _ | ⟨c1, _ | ⟨c2, _ | ⟨c3, _ | ⟨c4, _ |
    ⟨c5, rest⟩⟩⟩⟩⟩⟩ <;> simp_all [shape3, shape4]

/-- Contrapositive transport for boolean exclusion facts. -/
theorem bool_excl {a b : Bool} (h : a = true → b = false) (hb : b = true) :
    a = false := by
  cases ha : a
  · rfl
  · rw [h ha] at hb; exact absurd hb (by simp)

/-- When the input matches pattern 1, the pattern loop is exactly the
pattern-1 attempt (all other shapes are excluded by disjointness). -/
theorem tryPatterns_eq_1 (tm : Int) (l : List Char) (hs : shape1 l = true) :
    tryPatterns tm l
      = (strp1 l).map (fun hm => tm + ((60 * hm.1 + hm.2 : Nat) : Int)) := by
  have h2 := shape1_not_shape2 l hs
  have h3 := shape1_not_shape3 l hs
  have h4 := shape1_not_shape4 l hs
  cases hp : strp1 l <;> simp [tryPatterns, hs, h2, h3, h4, hp]

/-- When the input matches pattern 2, the pattern loop is exactly the
pattern-2 attempt. -/
theorem tryPatterns_eq_2 (tm : Int) (l : List Char) (hs : shape2 l = true) :
    tryPatterns tm l
      = (strp2 l).map (fun hm => tm + ((60 * hm.1 + hm.2 : Nat) : Int)) := by
  have h1 := bool_excl (shape1_not_shape2 l) hs
  have h3 := shape2_not_shape3 l hs
  have h4 := shape2_not_shape4 l hs
  cases hp : strp2 l <;> simp [tryPatterns, hs, h1, h3, h4, hp]

/-- When the input matches pattern 3, the pattern loop is exactly the
pattern-3 attempt. -/
theorem tryPatterns_eq_3 (tm : Int) (l : List Char) (hs : shape3 l = true) :
    tryPatterns tm l
      = (strp3 l).map (fun hm => tm + ((60 * hm.1 + hm.2 : Nat) : Int)) := by
  have h1 := bool_excl (shape1_not_shape3 l) hs
  have h2 := bool_excl (shape2_not_shape3 l) hs
  have h4 := shape3_not_shape4 l hs
  cases hp : strp3 l <;> simp [tryPatterns, hs, h1, h2, h4, hp]

/-- When the input matches pattern 4, the pattern loop is exactly the
pattern-4 attempt — in particular it does not read the machine-local date. -/
theorem tryPatterns_eq_4 (tm : Int) (l : List Char) (hs : shape4 l = true) :
    tryPatterns tm l = strp4 l := by
  have h1 := bool_excl (shape1_not_shape4 l) hs
  have h2 := bool_excl (shape2_not_shape4 l) hs
  have h3 := bool_excl (shape3_not_shape4 l) hs
  simp [tryPatterns, hs, h1, h2, h3]

/-- A successful `%I` field is an hour between 1 and 12. -/
theorem strpI_bounds {ds : List Char} {v : Nat} (h : strpI ds = some v) :
    1 ≤ v ∧ v ≤ 12 := by
  simp only [strpI] at h
  split at h
  · cases h; assumption
  · simp at h

/-- A successful `%H` field is an hour at most 23. -/
theorem strpH_bounds {ds : List Char} {v : Nat} (h : strpH ds = some v) :
    v ≤ 23 := by
  simp only [strpH] at h
  split at h
  · cases h; assumption
  · simp at h

/-- A successful `%M` field is a minute at most 59. -/
theorem strpM_bounds {ds : List Char} {v : Nat} (h : strpM ds = some v) :
    v ≤ 59 := by
  simp only [strpM] at h
  split at h
  · cases h; assumption
  · simp at h

/-- The 12-to-24-hour conversion keeps hours below 24. -/
theorem applyMeridiem_le {pm : Bool} {h : Nat} (hh : h ≤ 12) :
    applyMeridiem pm h ≤ 23 := by
  unfold applyMeridiem
  split <;> split <;> omega

/-- Any time `strp1` produces is a valid wall-clock (hour, minute) pair. -/
theorem strp1_bounds {l : List Char} {hm : Nat × Nat} (h : strp1 l = some hm) :
    hm.1 ≤ 23 ∧ hm.2 ≤ 59 := by
  rcases l with _ | ⟨c0, _ | ⟨c1, _ | ⟨c2, _ | ⟨c3, _ | ⟨c4, rest⟩⟩⟩⟩⟩ <;>
    simp only [strp1] at h
  all_goals first
  | exact Option.noConfusion h
  | · obtain ⟨h12, hI, rfl⟩ := Option.map_eq_some'.mp h
      exact ⟨applyMeridiem_le (strpI_bounds hI).2, by omega⟩

/-- Any time `strp2` produces is a valid wall-clock (hour, minute) pair. -/
theorem strp2_bounds {l : List Char} {hm : Nat × Nat} (h : strp2 l = some hm) :
    hm.1 ≤ 23 ∧ hm.2 ≤ 59 := by
  rcases l with _ | ⟨c0, _ | ⟨c1, _ | ⟨c2, _ | ⟨c3, _ | ⟨c4, _ | ⟨c5, _ | ⟨c6,
    _ | ⟨c7, rest⟩⟩⟩⟩⟩⟩⟩⟩ <;> simp only [strp2] at h
  all_goals first
  | exact Option.noConfusion h
  | · obtain ⟨h12, hI, hrest⟩ := Option.bind_eq_some.mp h
      obtain ⟨mi, hM, rfl⟩ := Option.map_eq_some'.mp hrest
      exact ⟨applyMeridiem_le (strpI_bounds hI).2, strpM_bounds hM⟩

/-- Any time `strp3` produces is a valid wall-clock (hour, minute) pair. -/
theorem strp3_bounds {l : List Char} {hm : Nat × Nat} (h : strp3 l = some hm) :
    hm.1 ≤ 23 ∧ hm.2 ≤ 59 := by
  rcases l with _ | ⟨c0, _ | ⟨c1, _ | ⟨c2, _ | ⟨c3, _ | ⟨c4, _ |
    ⟨c5, rest⟩⟩⟩⟩⟩⟩ <;> simp only [strp3] at h
  all_goals first
  | exact Option.noConfusion h
  | · obtain ⟨hh, hH, hrest⟩ := Option.bind_eq_some.mp h
      obtain ⟨mi, hM, rfl⟩ := Option.map_eq_some'.mp hrest
      exact ⟨strpH_bounds hH, strpM_bounds hM⟩

/-- The wall-clock date of a time placed on today's date is today. -/
theorem ediv_today (D : Int) (r : Nat) (hr : r < 1440) :
    (1440 * D + (r : Int)).ediv 1440 = D := by
  show (1440 * D + (r : Int)) / 1440 = D
  rw [add_comm, Int.add_mul_ediv_left _ D (by norm_num)]
  rw [Int.ediv_eq_zero_of_lt (Int.natCast_nonneg r) (by exact_mod_cast hr)]
  omega

/-- C4: if the (stripped) expression matches one of the four surface-syntax
shapes but its `strptime` emulation rejects it (out-of-range numeric field),
the whole parse fails with the `Could not parse time` error — no later
pattern rescues it, because the four shapes are pairwise disjoint — and the
whole conversion fails the same way whenever both zones resolve. -/
theorem c4_range_failure (time_str : String)
    (h : (shape1 (stripStr time_str).data = true
            ∧ strp1 (stripStr time_str).data = none)
       ∨ (shape2 (stripStr time_str).data = true
            ∧ strp2 (stripStr time_str).data = none)
       ∨ (shape3 (stripStr time_str).data = true
            ∧ strp3 (stripStr time_str).data = none)
       ∨ (shape4 (stripStr time_str).data = true
            ∧ strp4 (stripStr time_str).data = none)) :
    (∀ db clock tz, parse_time_input db clock time_str tz
        = .error ("Could not parse time: " ++ stripStr time_str))
    ∧ (∀ db clock f t zf zt,
        normalize_timezone db.catalog f = .ok zf →
        normalize_timezone db.catalog t = .ok zt →
        convert_time db clock time_str f t
          = .error ("Could not parse time: " ++ stripStr time_str)) := by
  have hparse : ∀ db clock tz, parse_time_input db clock time_str tz
      = .error ("Could not parse time: " ++ stripStr time_str) := by
    intro db clock tz
    have hshape : shape1 (stripStr time_str).data = true
        ∨ shape2 (stripStr time_str).data = true
        ∨ shape3 (stripStr time_str).data = true
        ∨ shape4 (stripStr time_str).data = true := by
      rcases h with ⟨hs, -⟩ | ⟨hs, -⟩ | ⟨hs, -⟩ | ⟨hs, -⟩
      exacts [Or.inl hs, Or.inr (Or.inl hs), Or.inr (Or.inr (Or.inl hs)),
        Or.inr (Or.inr (Or.inr hs))]
    obtain ⟨c, r, hl, hc⟩ := shape_split _ hshape
    simp only [parse_time_input]
    rw [if_neg (by rw [hl]; exact digit_not_now hc)]
    rcases h with ⟨hs, hp⟩ | ⟨hs, hp⟩ | ⟨hs, hp⟩ | ⟨hs, hp⟩
    · rw [tryPatterns_eq_1 _ _ hs, hp]; rfl
    · rw [tryPatterns_eq_2 _ _ hs, hp]; rfl
    · rw [tryPatterns_eq_3 _ _ hs, hp]; rfl
    · rw [tryPatterns_eq_4 _ _ hs, hp]
  refine ⟨hparse, ?_⟩
  intro db clock f t zf zt hf hgt
  simp only [convert_time, hf, hgt, hparse db clock zf]

/-- C4 witness: `convert("25:00", "UTC", "UTC")` matches the 24-hour shape,
is rejected on the hour range, and the whole call fails with the
unparseable-time error. -/
theorem c4_range_failure_witness :
    convert_time stdDb clk0 "25:00" "UTC" "UTC"
      = .error "Could not parse time: 25:00" :=
  (c4_range_failure "25:00" (Or.inr (Or.inr (Or.inl ⟨by decide, by decide⟩)))).2
    stdDb clk0 "UTC" "UTC" "UTC" "UTC" (by decide) (by decide)

/-- C8: when a time-only form (shapes 1–3) parses successfully, the calendar
date of the parsed instant's wall clock is the machine-local current date
carried by the clock input (`datetime.now().date()`), whatever the source
zone is; when the full date+time form (shape 4) parses, the result is
independent of the clock entirely — date and time come from the expression. -/
theorem c8_date_default (db : TzDb) (clock : Clock) (time_str tz : String)
    (dt : Datetime) (h : parse_time_input db clock time_str tz = .ok dt) :
    ((shape1 (stripStr time_str).data || shape2 (stripStr time_str).data
        || shape3 (stripStr time_str).data) = true →
      dt.wallMinutes.ediv 1440
        = daysFromCivil clock.todayY clock.todayM clock.todayD)
    ∧ (shape4 (stripStr time_str).data = true →
      ∀ clock2, parse_time_input db clock2 time_str tz = .ok dt) := by
  constructor
  · intro hs
    simp only [Bool.or_eq_true] at hs
    have hshape : shape1 (stripStr time_str).data = true
        ∨ shape2 (stripStr time_str).data = true
        ∨ shape3 (stripStr time_str).data = true
        ∨ shape4 (stripStr time_str).data = true := by
      rcases hs with (h1 | h2) | h3
      exacts [Or.inl h1, Or.inr (Or.inl h2), Or.inr (Or.inr (Or.inl h3))]
    obtain ⟨c, r, hl, hc⟩ := shape_split _ hshape
    simp only [parse_time_input] at h
    rw [if_neg (by rw [hl]; exact digit_not_now hc)] at h
    rcases hs with (hs | hs) | hs
    · rw [tryPatterns_eq_1 _ _ hs] at h
      cases hp : strp1 (stripStr time_str).data with
      | none => rw [hp] at h; simp at h
      | some hm =>
        rw [hp] at h
        simp only [Option.map_some'] at h
        cases h
        have hb := strp1_bounds hp
        simp only [attachZone, todayMinutes]
        exact ediv_today _ _ (by omega)
    · rw [tryPatterns_eq_2 _ _ hs] at h
      cases hp : strp2 (stripStr time_str).data with
      | none => rw [hp] at h; simp at h
      | some hm =>
        rw [hp] at h
        simp only [Option.map_some'] at h
        cases h
        have hb := strp2_bounds hp
        simp only [attachZone, todayMinutes]
        exact ediv_today _ _ (by omega)
    · rw [tryPatterns_eq_3 _ _ hs] at h
      cases hp : strp3 (stripStr time_str).data with
      | none => rw [hp] at h; simp at h
      | some hm =>
        rw [hp] at h
        simp only [Option.map_some'] at h
        cases h
        have hb := strp3_bounds hp
        simp only [attachZone, todayMinutes]
        exact ediv_today _ _ (by omega)
  · intro hs clock2
    obtain ⟨c, r, hl, hc⟩ := shape_split _ (Or.inr (Or.inr (Or.inr hs)))
    have hnow : pyLower (stripStr time_str).data ≠ ['n', 'o', 'w'] := by
      rw [hl]; exact digit_not_now hc
    simp only [parse_time_input] at h ⊢
    rw [if_neg hnow] at h ⊢
    rw [tryPatterns_eq_4 _ _ hs] at h ⊢
    exact h

/-- C8 witness: `"3pm"` parsed under a clock whose machine-local date is
1970-01-01 lands on that date (day number 0). -/
theorem c8_date_default_witness :
    (Datetime.mk 900 0 "UTC").wallMinutes.ediv 1440 = daysFromCivil 1970 1 1 :=
  (c8_date_default stdDb clk0 "3pm" "UTC" ⟨900, 0, "UTC"⟩ (by decide)).1
    (by decide)
